import Mathlib

set_option maxRecDepth 8192

namespace EventSite

/-! Shallow embedding of src/app.py (Event-site-server): the /generate
pipeline (Page Assembler), the Cloudinary upload tasks (Asset Store and
Manifest Store collaborators, modelled as request-scoped oracles), and the
/generated/{uid}/ page resolver. -/

/-! Python string primitives used by app.py. -/

def isPyWhitespace (c : Char) : Bool :=
  c = ' ' || c = '\t' || c = '\n' || c = '\r' || c = '\x0b' || c = '\x0c'

/-- Python str.strip(): drop leading and trailing whitespace. -/
def pyStrip (s : String) : String :=
  String.mk (((s.data.dropWhile isPyWhitespace).reverse.dropWhile isPyWhitespace).reverse)

/-- Truthiness of a Python value that is either None or a str:
None and the empty string are falsy. -/
def pyTruthy : Option String → Bool
  | none => false
  | some s => s ≠ ""

/-- Python `a or d` where a is None-or-str and d is a str. -/
def orElseStr (a : Option String) (d : String) : String :=
  if pyTruthy a then a.getD "" else d

/-- Python s.rstrip(sep single char) specialised to rstrip of a slash,
as in request.host_url.rstrip of the slash character. -/
def rstripSlash (s : String) : String :=
  String.mk ((s.data.reverse.dropWhile (fun c => c = '/')).reverse)

def containsDot (s : String) : Bool := s.data.contains '.'

/-- The characters after the last dot: filename.rsplit at the dot, once,
index 1 (meaningful when a dot is present). -/
def extAfterLastDot (s : String) : String :=
  String.mk ((s.data.reverse.takeWhile (fun c => c != '.')).reverse)

/-- filename.rsplit at the dot, once, index 0: everything before the last
dot, or the whole string when there is no dot. -/
def beforeLastDot (s : String) : String :=
  if containsDot s then String.mk (((s.data.reverse.dropWhile (fun c => c != '.')).drop 1).reverse)
  else s

/-- Python str.lower() (ASCII case folding, as the extensions need). -/
def lowerStr (s : String) : String :=
  String.mk (s.data.map Char.toLower)

/-- Python str.split(sep) for a one-character separator, over char lists:
every occurrence separates, so adjacent separators yield empty fields and
the empty input yields one empty field. -/
def splitOnChar (sep : Char) : List Char → List (List Char)
  | [] => [[]]
  | c :: rest =>
    let r := splitOnChar sep rest
    if c = sep then [] :: r
    else
      match r with
      | [] => [[c]]
      | h :: t => (c :: h) :: t

/-- Python raw.split on the newline character, as src/app.py line 204. -/
def pySplitNewline (s : String) : List String :=
  (splitOnChar '\n' s.data).map String.mk

/-- Python dict.get(k, d) for a small literal dict. -/
def dictGet (l : List (String × String)) (k d : String) : String :=
  match l.find? (fun p => p.1 = k) with
  | some p => p.2
  | none => d

/-! Config (src/app.py lines 34-45). -/

def ALLOWED_IMAGES : List String := ["png", "jpg", "jpeg", "gif", "webp"]

def ALLOWED_MUSIC : List String := ["mp3", "wav", "ogg"]

def MAX_GALLERY : Nat := 8

/-- src/app.py line 91-92: a dot is present and the lowercased extension
after the last dot is in the allow-list. -/
def allowed (filename : String) (types : List String) : Bool :=
  containsDot filename && types.contains (lowerStr (extAfterLastDot filename))

/-! Request and environment data. -/

/-- A werkzeug FileStorage: a filename plus its stream content. -/
structure FileStorage where
  filename : String
  content : String
deriving Repr, DecidableEq

/-- The dict returned by cloudinary.uploader.upload; the code only reads
result.get of secure_url, which may be absent. -/
structure CloudResult where
  secure_url : Option String
deriving Repr, DecidableEq

/-- The form fields /generate reads (request.form.get returns None for an
absent field). -/
structure ReqForm where
  name : Option String := none
  title : Option String := none
  messages : Option String := none
  template : Option String := none
  main_image_selected : Option String := none
  gift_image_selected : Option String := none
  music_selected : Option String := none
  music_option : Option String := none
deriving Repr, DecidableEq

/-- The files /generate reads (request.files). -/
structure ReqFiles where
  main_image : Option FileStorage := none
  gift_image : Option FileStorage := none
  music : Option FileStorage := none
  gallery : List FileStorage := []
deriving Repr, DecidableEq

/-- The context mapping of the manifest (src/app.py lines 308-317). -/
structure Context where
  name : String
  title : String
  messages : List String
  main_image : Option String
  gift_image : String
  music : String
  gallery_link : String
  gallery_images : List String
deriving Repr, DecidableEq

/-- The manifest record (src/app.py lines 304-318). -/
structure Manifest where
  template : String
  created_at : Nat
  uid : String
  context : Context
deriving Repr, DecidableEq

/-- Request-scoped environment: the generated uid, the clock, the request
host url, the url_for result for the gallery page, and the external
collaborators (werkzeug secure_filename and the three cloudinary upload
endpoints, each of which can raise, modelled as Except). -/
structure Env where
  uid : String
  createdAt : Nat
  hostUrl : String
  galleryLink : String
  secureFilename : String → String
  cloudinaryImage : FileStorage → String → String → Except Unit CloudResult
  cloudinaryVideo : FileStorage → String → String → Except Unit CloudResult
  cloudinaryRaw : Manifest → String → String → Except Unit CloudResult

/-! The upload worker functions (src/app.py lines 94-137, 264-267). -/

/-- src/app.py lines 94-117: upload_image_task wraps the cloudinary call in
try/except and returns None on any exception, else result.get of
secure_url. -/
def upload_image_task (env : Env) (file_storage : FileStorage) (public_id folder : String) :
    Option String :=
  match env.cloudinaryImage file_storage public_id folder with
  | Except.ok result => result.secure_url
  | Except.error _ => none

/-- src/app.py lines 264-267: upload_music_task has no try/except, so an
exception from the cloudinary call propagates (Except.error). -/
def upload_music_task (env : Env) (f_obj : FileStorage) (pid fldr : String) :
    Except Unit (Option String) :=
  match env.cloudinaryVideo f_obj pid fldr with
  | Except.ok res => Except.ok res.secure_url
  | Except.error e => Except.error e

/-- src/app.py lines 119-137: upload_raw_task wraps serialization and the
cloudinary call in try/except and returns None on any exception. -/
def upload_raw_task (env : Env) (data : Manifest) (public_id folder : String) :
    Option String :=
  match env.cloudinaryRaw data public_id folder with
  | Except.ok result => result.secure_url
  | Except.error _ => none

/-! The /generate pipeline (src/app.py lines 193-335). -/

/-- The condition of handle_upload (src/app.py line 228): the FileStorage
is truthy (werkzeug FileStorage truthiness is truthiness of its filename)
and its extension passes the image allow-list. -/
def acceptImage (f : FileStorage) : Bool :=
  f.filename ≠ "" && allowed f.filename ALLOWED_IMAGES

/-- The condition of the music branch (src/app.py line 252). -/
def acceptMusic (f : FileStorage) : Bool :=
  f.filename ≠ "" && allowed f.filename ALLOWED_MUSIC

/-- A dispatched image upload future: its slot label and the value its
result call returns (upload_image_task never raises). -/
structure ImgFuture where
  slot : String
  result : Option String
deriving Repr, DecidableEq

/-- src/app.py lines 227-232: dispatch an image upload if the file is
truthy and allowed; public id is the slot label joined to the secure
filename with its extension removed. -/
def handle_upload (env : Env) (folder : String) (file_obj : Option FileStorage) (pfx : String) :
    Option ImgFuture :=
  match file_obj with
  | none => none
  | some f =>
    if acceptImage f then
      some { slot := pfx,
             result := upload_image_task env f
               (pfx ++ "_" ++ beforeLastDot (env.secureFilename f.filename)) folder }
    else none

/-- src/app.py lines 248-270: dispatch the music upload if the file is
truthy and passes the audio allow-list. -/
def dispatch_music (env : Env) (folder : String) (file_obj : Option FileStorage) :
    Option (Except Unit (Option String)) :=
  match file_obj with
  | none => none
  | some f =>
    if acceptMusic f then
      some (upload_music_task env f
        ("music_" ++ beforeLastDot (env.secureFilename f.filename)) folder)
    else none

def folderName (env : Env) : String := "birthday_app/" ++ env.uid

/-- src/app.py line 204: split the raw messages on newlines, strip each
line, drop blank lines, keep the first 20. -/
def theMessages (form : ReqForm) : List String :=
  (((pySplitNewline (form.messages.getD "")).map pyStrip).filter (fun m => m ≠ "")).take 20

/-- src/app.py lines 209-214, byte-for-byte: the checked-in title literals
are double-encoded (the UTF-8 bytes of each emoji re-read as cp1252 and
stored again), so the running program computes these mojibake strings,
not the emoji titles the surrounding code evidently intends. -/
def title_map : List (String × String) :=
  [("birthday.html", "ðŸŽ‰ Happy Birthday"),
   ("anniversary.html", "ðŸ’– Happy Anniversary"),
   ("birthday2.html", "ðŸŽŠ Happy Birthday"),
   ("birthday3.html", "ðŸŽŠ Happy Birthday")]

/-- src/app.py lines 202, 207-217: verbatim user title when non-empty
after stripping, else the per-template table with a generic default. -/
def theTitle (form : ReqForm) : String :=
  if pyStrip (form.title.getD "") = "" then
    dictGet title_map (form.template.getD "birthday.html") "ðŸŽ‰ Celebration"
  else pyStrip (form.title.getD "")

def main_future (env : Env) (files : ReqFiles) : Option ImgFuture :=
  handle_upload env (folderName env) files.main_image "main"

def gift_future (env : Env) (files : ReqFiles) : Option ImgFuture :=
  handle_upload env (folderName env) files.gift_image "gift"

/-- src/app.py lines 239-243: enumerate the first MAX_GALLERY gallery
files and keep the dispatched futures, in submission order. -/
def gallery_futures (env : Env) (files : ReqFiles) : List ImgFuture :=
  ((files.gallery.take MAX_GALLERY).enum).filterMap
    (fun p => handle_upload env (folderName env) (some p.2) ("gallery_" ++ toString p.1))

def music_future (env : Env) (files : ReqFiles) : Option (Except Unit (Option String)) :=
  dispatch_music env (folderName env) files.music

def futResult : Option ImgFuture → Option String
  | some fu => fu.result
  | none => none

/-- src/app.py lines 275-279: main image resolution with fallback to the
main_image_selected form value. -/
def main_url (env : Env) (form : ReqForm) (files : ReqFiles) : Option String :=
  if pyTruthy (futResult (main_future env files)) then futResult (main_future env files)
  else form.main_image_selected

/-- src/app.py lines 282-286: gift image resolution with fallback to
gift_image_selected or the static default. -/
def gift_url (env : Env) (form : ReqForm) (files : ReqFiles) : String :=
  if pyTruthy (futResult (gift_future env files)) then (futResult (gift_future env files)).getD ""
  else orElseStr form.gift_image_selected "/static/default_gift.png"

/-- src/app.py lines 289-293: collect truthy gallery upload results in
future (that is, submission) order. -/
def gallery_urls (env : Env) (files : ReqFiles) : List String :=
  (gallery_futures env files).filterMap (fun fu => if pyTruthy fu.result then fu.result else none)

/-- Whether resolving the music future raises (src/app.py line 297:
upload_music_task has no try/except, so its exception propagates to the
request handler). -/
def musicRaised (env : Env) (files : ReqFiles) : Bool :=
  match music_future env files with
  | some (Except.error _) => true
  | _ => false

/-- src/app.py lines 249, 296-301: music resolution. A truthy uploaded
url wins; with no dispatched upload the music_selected and music_option
form values are consulted before the static default. -/
def music_url (env : Env) (form : ReqForm) (files : ReqFiles) : String :=
  match music_future env files with
  | some (Except.ok r) => if pyTruthy r then r.getD "" else "/static/default_music.mp3"
  | some (Except.error _) => "/static/default_music.mp3"
  | none => orElseStr form.music_selected (orElseStr form.music_option "/static/default_music.mp3")

/-- src/app.py lines 199-318: the manifest record built by /generate. -/
def theManifest (env : Env) (form : ReqForm) (files : ReqFiles) : Manifest :=
  { template := form.template.getD "birthday.html",
    created_at := env.createdAt,
    uid := env.uid,
    context :=
      { name := form.name.getD "Friend",
        title := theTitle form,
        messages := theMessages form,
        main_image := main_url env form files,
        gift_image := gift_url env form files,
        music := music_url env form files,
        gallery_link := env.galleryLink,
        gallery_images := gallery_urls env files } }

/-- Observable events of one /generate request, in program order. -/
inductive Event where
  | dispatch (slot : String)
  | resolve (slot : String)
  | manifestWrite
deriving Repr, DecidableEq

def futSlot : Option ImgFuture → List String
  | some fu => [fu.slot]
  | none => []

/-- The dispatched upload slots of a request, in dispatch order (main,
gift, gallery in submission order, music); src/app.py lines 235-270.
The resolution order (lines 275-301) is the same. -/
def requestSlots (env : Env) (files : ReqFiles) : List String :=
  futSlot (main_future env files) ++ futSlot (gift_future env files)
    ++ (gallery_futures env files).map (fun fu => fu.slot)
    ++ (match music_future env files with | some _ => ["music"] | none => [])

/-- The JSON response of /generate: a link and uid on success, a generic
error message on failure. -/
inductive GenResult where
  | ok (link : String) (uid : String)
  | error (msg : String)
deriving Repr, DecidableEq

def genericError : String := "An error occurred while generating your page."

/-- The observable outcome of one /generate request: the HTTP response,
the record handed to the Manifest Store if the write was attempted, and
the event trace. -/
structure GenOutcome where
  response : GenResult
  manifestAttempt : Option Manifest
  trace : List Event
deriving Repr, DecidableEq

/-- src/app.py lines 193-335: the /generate handler. All work up to the
music resolution cannot raise (upload_image_task catches internally); a
music upload exception propagates to the handler's except and yields the
generic error before the manifest write; otherwise the manifest is built
and written, and a falsy manifest url raises, caught by the same except. -/
def generate (env : Env) (form : ReqForm) (files : ReqFiles) : GenOutcome :=
  let slots := requestSlots env files
  if musicRaised env files then
    { response := GenResult.error genericError,
      manifestAttempt := none,
      trace := slots.map Event.dispatch ++ slots.map Event.resolve }
  else
    let manifest_data := theManifest env form files
    let manifest_url := upload_raw_task env manifest_data ("manifest_" ++ env.uid ++ ".json") (folderName env)
    let tr := slots.map Event.dispatch ++ slots.map Event.resolve ++ [Event.manifestWrite]
    if pyTruthy manifest_url then
      { response := GenResult.ok (rstripSlash env.hostUrl ++ "/generated/" ++ env.uid ++ "/") env.uid,
        manifestAttempt := some manifest_data,
        trace := tr }
    else
      { response := GenResult.error genericError,
        manifestAttempt := some manifest_data,
        trace := tr }

/-! The page resolver (src/app.py lines 139-181, 339-350). -/

/-- Environment of the resolver: the cloud name, the HTTP GET collaborator
(which can raise, return a status, and parse a body — httpJson none models
a 200 body whose json parse raises), and the template renderer (which can
raise, e.g. TemplateNotFound). -/
structure ResolverEnv where
  cloudName : String
  httpRaises : String → Bool
  httpStatus : String → Nat
  httpJson : String → Option Manifest
  render : String → Context → Except Unit String

/-- src/app.py line 169: the conventional unversioned manifest URL. -/
def manifestUrl (env : ResolverEnv) (uid : String) : String :=
  "https://res.cloudinary.com/" ++ env.cloudName ++ "/raw/upload/birthday_app/"
    ++ uid ++ "/manifest_" ++ uid ++ ".json"

/-- src/app.py lines 139-181: fetch the manifest; any exception and any
non-200 status yield None. -/
def get_manifest_from_cloudinary (env : ResolverEnv) (uid : String) : Option Manifest :=
  if env.httpRaises (manifestUrl env uid) then none
  else if env.httpStatus (manifestUrl env uid) = 200 then env.httpJson (manifestUrl env uid)
  else none

/-- What /generated/{uid}/ returns: a rendered page, a 404, or an
unhandled fault (which the code never produces). -/
inductive PageResult where
  | rendered (html : String)
  | notFound
  | fault (msg : String)
deriving Repr, DecidableEq

/-- src/app.py lines 339-350: missing manifest aborts with 404; a raise
from fetching or rendering is caught and likewise becomes 404. -/
def generated_page (env : ResolverEnv) (uid : String) : PageResult :=
  match get_manifest_from_cloudinary env uid with
  | none => PageResult.notFound
  | some data =>
    match env.render data.template data.context with
    | Except.ok html => PageResult.rendered html
    | Except.error _ => PageResult.notFound

/-! A write-once key-value view of the Manifest Store: manifests are only
ever created (one put per /generate request, never an update), so a read
returns a record exactly as some request wrote it. -/

abbrev ManifestStore : Type := List (String × Manifest)

def getManifest (st : ManifestStore) (uid : String) : Option Manifest :=
  (st.find? (fun p => p.1 = uid)).map (fun p => p.2)

/-! Concrete request-scoped environments and inputs used in witnesses and
counterexamples. -/

/-- An environment in which every cloudinary call succeeds. -/
def envOk : Env :=
  { uid := "uid0000001",
    createdAt := 1700000000,
    hostUrl := "http://localhost:5001/",
    galleryLink := "http://localhost:5001/generated/uid0000001/gallery",
    secureFilename := fun s => s,
    cloudinaryImage := fun _ _ _ => Except.ok { secure_url := some "https://img.example/asset" },
    cloudinaryVideo := fun _ _ _ => Except.ok { secure_url := some "https://aud.example/track" },
    cloudinaryRaw := fun _ _ _ => Except.ok { secure_url := some "https://raw.example/manifest" } }

/-- Like envOk but every image upload raises inside cloudinary. -/
def envImgFail : Env := { envOk with cloudinaryImage := fun _ _ _ => Except.error () }

/-- Like envOk but the raw (manifest) upload raises. -/
def envRawFail : Env := { envOk with cloudinaryRaw := fun _ _ _ => Except.error () }

/-- Like envOk but the music upload succeeds without a secure_url. -/
def envVidNone : Env := { envOk with cloudinaryVideo := fun _ _ _ => Except.ok { secure_url := none } }

def noFiles : ReqFiles := {}

/-- Thirty non-blank newline-separated lines. -/
def raw30 : String := String.intercalate "\n" ((List.range 30).map (fun i => "line " ++ toString i))

def form30 : ReqForm := { messages := some raw30 }

/-- Twelve gallery files, all with an allowed image extension. -/
def files12 : ReqFiles :=
  { gallery := (List.range 12).map (fun i => { filename := "p" ++ toString i ++ ".jpg", content := "" }) }

def emptyForm : ReqForm := {}

/-! Equation lemmas exposing the three observables of generate. -/

lemma generate_manifestAttempt (env : Env) (form : ReqForm) (files : ReqFiles) :
    (generate env form files).manifestAttempt =
      if musicRaised env files then none else some (theManifest env form files) := by
  unfold generate
  split
  · rfl
  · dsimp only
    split <;> rfl

lemma generate_trace (env : Env) (form : ReqForm) (files : ReqFiles) :
    (generate env form files).trace =
      if musicRaised env files then
        (requestSlots env files).map Event.dispatch ++ (requestSlots env files).map Event.resolve
      else
        (requestSlots env files).map Event.dispatch ++ (requestSlots env files).map Event.resolve
          ++ [Event.manifestWrite] := by
  unfold generate
  split
  · rfl
  · dsimp only
    split <;> rfl

lemma generate_response (env : Env) (form : ReqForm) (files : ReqFiles) :
    (generate env form files).response =
      if musicRaised env files then GenResult.error genericError
      else if pyTruthy (upload_raw_task env (theManifest env form files)
          ("manifest_" ++ env.uid ++ ".json") (folderName env)) then
        GenResult.ok (rstripSlash env.hostUrl ++ "/generated/" ++ env.uid ++ "/") env.uid
      else GenResult.error genericError := by
  unfold generate
  split
  · rfl
  · dsimp only
    split <;> simp_all

lemma manifestAttempt_eq_some {env : Env} {form : ReqForm} {files : ReqFiles} {m : Manifest}
    (h : (generate env form files).manifestAttempt = some m) :
    m = theManifest env form files := by
  rw [generate_manifestAttempt] at h
  split at h
  · exact absurd h (by simp)
  · exact (Option.some.inj h).symm

def formC9 : ReqForm :=
  { name := some "Alice", title := some "", messages := some "Hi\n\nThere",
    template := some "birthday.html" }

/-- C9 (code bug): at the documented example form the code computes every
context field as documented — name, the two trimmed messages, null main
image, the static gift and music defaults, empty gallery — except the
title: the checked-in app.py stores its title literals double-encoded, so
the computed title is the mojibake string and differs from the documented
one. -/
theorem C9_example_manifest :
    ((generate envOk formC9 noFiles).manifestAttempt =
      some { template := "birthday.html", created_at := 1700000000, uid := "uid0000001",
             context := { name := "Alice", title := "ðŸŽ‰ Happy Birthday",
                          messages := ["Hi", "There"], main_image := none,
                          gift_image := "/static/default_gift.png",
                          music := "/static/default_music.mp3",
                          gallery_link := "http://localhost:5001/generated/uid0000001/gallery",
                          gallery_images := [] } }) ∧
    (theManifest envOk formC9 noFiles).context.title ≠ "🎉 Happy Birthday" :=
  ⟨rfl, by decide⟩

/-- C6: for every /generate request the manifest's messages list is the raw
messages field split on newlines, each line stripped, blank lines dropped
and the result truncated to the first 20 entries; and a concrete
submission of 30 non-blank lines yields exactly 20 entries. -/
theorem C6_messages_transform :
    (∀ env form files m, (generate env form files).manifestAttempt = some m →
        m.context.messages =
          (((pySplitNewline (form.messages.getD "")).map pyStrip).filter (fun s => s ≠ "")).take 20) ∧
    ((generate envOk form30 noFiles).manifestAttempt.map (fun m => m.context.messages.length)
        = some 20) := by
  constructor
  · intro env form files m h
    rw [manifestAttempt_eq_some h]
    rfl
  · rfl

/-- Witness for C6: the universal part applied at a concrete submission. -/
theorem C6_messages_transform_witness :
    (theManifest envOk { messages := some "a\n\n b \nc" } noFiles).context.messages
      = ["a", "b", "c"] := by
  have h := C6_messages_transform.1 envOk { messages := some "a\n\n b \nc" } noFiles
    (theManifest envOk { messages := some "a\n\n b \nc" } noFiles) (by rfl)
  exact h.trans (by rfl)

/-- C8: every manifest a /generate request hands to the Manifest Store has
at most 20 messages and at most 8 gallery images; a read from the
write-once store returns a record satisfying the same bounds whenever all
stored records do; and twelve gallery files of allowed type yield exactly
eight gallery images. -/
theorem C8_manifest_bounds :
    (∀ env form files m, (generate env form files).manifestAttempt = some m →
        m.context.messages.length ≤ 20 ∧ m.context.gallery_images.length ≤ 8) ∧
    (∀ st : ManifestStore,
        (∀ p ∈ st, p.2.context.messages.length ≤ 20 ∧ p.2.context.gallery_images.length ≤ 8) →
        ∀ uid m, getManifest st uid = some m →
          m.context.messages.length ≤ 20 ∧ m.context.gallery_images.length ≤ 8) ∧
    ((generate envOk emptyForm files12).manifestAttempt.map (fun m => m.context.gallery_images.length)
        = some 8) := by
  refine ⟨?_, ?_, by rfl⟩
  · intro env form files m h
    rw [manifestAttempt_eq_some h]
    constructor
    · show (theMessages form).length ≤ 20
      unfold theMessages
      rw [List.length_take]
      exact min_le_left _ _
    · show (gallery_urls env files).length ≤ 8
      calc (gallery_urls env files).length
          ≤ (gallery_futures env files).length := List.length_filterMap_le _ _
        _ ≤ ((files.gallery.take MAX_GALLERY).enum).length := List.length_filterMap_le _ _
        _ = (files.gallery.take MAX_GALLERY).length := List.enum_length
        _ ≤ 8 := by
            rw [List.length_take]
            exact le_trans (min_le_left _ _) (le_refl 8)
  · intro st hst uid m h
    unfold getManifest at h
    cases hf : st.find? (fun p => p.1 = uid) with
    | none => rw [hf] at h; simp at h
    | some p =>
      rw [hf] at h
      have hpm : p.2 = m := by simpa using h
      exact hpm ▸ hst p (List.mem_of_find?_eq_some hf)

/-- Witness for C8: the universal bound applied at a concrete request. -/
theorem C8_manifest_bounds_witness :
    (theManifest envOk emptyForm files12).context.messages.length ≤ 20 ∧
    (theManifest envOk emptyForm files12).context.gallery_images.length ≤ 8 :=
  C8_manifest_bounds.1 envOk emptyForm files12 (theManifest envOk emptyForm files12) (by rfl)

/-- C5: resolving an identifier with no manifest, and every exception
raised while fetching the manifest or rendering the template, yields
NotFound; the resolver never produces an unhandled fault. -/
theorem C5_resolver_notfound : ∀ (env : ResolverEnv) (uid : String),
    (∀ msg, generated_page env uid ≠ PageResult.fault msg) ∧
    (get_manifest_from_cloudinary env uid = none →
        generated_page env uid = PageResult.notFound) ∧
    (∀ m, get_manifest_from_cloudinary env uid = some m →
        env.render m.template m.context = Except.error () →
        generated_page env uid = PageResult.notFound) ∧
    (env.httpStatus (manifestUrl env uid) ≠ 200 →
        generated_page env uid = PageResult.notFound) ∧
    (env.httpRaises (manifestUrl env uid) = true →
        generated_page env uid = PageResult.notFound) := by
  intro env uid
  refine ⟨?_, ?_, ?_, ?_, ?_⟩
  · intro msg
    unfold generated_page
    cases h : get_manifest_from_cloudinary env uid with
    | none => simp
    | some d =>
      cases hr : env.render d.template d.context with
      | ok s => simp [hr]
      | error e => simp [hr]
  · intro h
    unfold generated_page
    rw [h]
  · intro m hm hr
    unfold generated_page
    rw [hm]
    simp [hr]
  · intro h
    have hres : get_manifest_from_cloudinary env uid = none := by
      simp [get_manifest_from_cloudinary, h]
    unfold generated_page
    rw [hres]
  · intro h
    have hres : get_manifest_from_cloudinary env uid = none := by
      simp [get_manifest_from_cloudinary, h]
    unfold generated_page
    rw [hres]

/-- A resolver environment in which the manifest fetch returns 404. -/
def renvMissing : ResolverEnv :=
  { cloudName := "demo",
    httpRaises := fun _ => false,
    httpStatus := fun _ => 404,
    httpJson := fun _ => none,
    render := fun _ _ => Except.ok "page" }

/-- Witness for C5: a nonexistent identifier resolves to NotFound. -/
theorem C5_resolver_notfound_witness :
    generated_page renvMissing "nonexistent-id" = PageResult.notFound :=
  (C5_resolver_notfound renvMissing "nonexistent-id").2.1 (by rfl)

/-- C3: a gift_image upload with a disallowed extension is never
dispatched, so the slot falls through to the gift_image_selected form
value when that is present and non-empty, and otherwise to the static
default. -/
theorem C3_gift_disallowed_fallback : ∀ (env : Env) (form : ReqForm) (files : ReqFiles)
      (f : FileStorage) (m : Manifest),
    files.gift_image = some f →
    allowed f.filename ALLOWED_IMAGES = false →
    (generate env form files).manifestAttempt = some m →
    (∀ s, form.gift_image_selected = some s → s ≠ "" → m.context.gift_image = s) ∧
    ((form.gift_image_selected = none ∨ form.gift_image_selected = some "") →
        m.context.gift_image = "/static/default_gift.png") := by
  intro env form files f m hf hal hm
  rw [manifestAttempt_eq_some hm]
  have hacc : acceptImage f = false := by
    unfold acceptImage
    rw [hal]
    simp
  have hfut : gift_future env files = none := by
    unfold gift_future handle_upload
    rw [hf]
    dsimp only
    rw [hacc]
    simp
  have hg : gift_url env form files = orElseStr form.gift_image_selected "/static/default_gift.png" := by
    unfold gift_url
    rw [hfut]
    rfl
  constructor
  · intro s hs hns
    show gift_url env form files = s
    rw [hg, hs]
    simp [orElseStr, pyTruthy, hns]
  · intro hcase
    show gift_url env form files = "/static/default_gift.png"
    rw [hg]
    rcases hcase with h | h <;> rw [h] <;> rfl

def formC3 : ReqForm := { gift_image_selected := some "https://preset/gift1.png" }

def filesC3 : ReqFiles := { gift_image := some { filename := "notes.txt", content := "" } }

/-- Witness for C3: a .txt gift upload with a selected preset present. -/
theorem C3_gift_disallowed_fallback_witness :
    (theManifest envOk formC3 filesC3).context.gift_image = "https://preset/gift1.png" := by
  have h := C3_gift_disallowed_fallback envOk formC3 filesC3
    { filename := "notes.txt", content := "" }
    (theManifest envOk formC3 filesC3) rfl (by rfl) (by rfl)
  exact h.1 "https://preset/gift1.png" rfl (by decide)

/-- C10: when a music file with an allowed audio extension is uploaded and
the upload task returns without a secure url, the music slot keeps the
static default even if music_selected or music_option form values were
supplied — the pre-selected fallback branch runs only when no music
upload was dispatched. -/
theorem C10_music_upload_no_url_default : ∀ (env : Env) (form : ReqForm) (files : ReqFiles)
      (f : FileStorage) (m : Manifest),
    files.music = some f →
    f.filename ≠ "" →
    allowed f.filename ALLOWED_MUSIC = true →
    (∀ g pid fl, env.cloudinaryVideo g pid fl = Except.ok { secure_url := none }) →
    (generate env form files).manifestAttempt = some m →
    m.context.music = "/static/default_music.mp3" := by
  intro env form files f m hf hname hal hvid hm
  rw [manifestAttempt_eq_some hm]
  have hacc : acceptMusic f = true := by
    simp [acceptMusic, hal, hname]
  have hmf : music_future env files = some (Except.ok none) := by
    unfold music_future dispatch_music
    rw [hf]
    dsimp only
    rw [hacc]
    simp only [if_true]
    unfold upload_music_task
    rw [hvid]
  show music_url env form files = _
  unfold music_url
  rw [hmf]
  rfl

def formC10 : ReqForm := { music_selected := some "https://sel.example/song" }

def filesC10 : ReqFiles := { music := some { filename := "song.mp3", content := "" } }

/-- Witness for C10: secure_url missing while music_selected supplied. -/
theorem C10_music_upload_no_url_default_witness :
    (theManifest envVidNone formC10 filesC10).context.music = "/static/default_music.mp3" :=
  C10_music_upload_no_url_default envVidNone formC10 filesC10
    { filename := "song.mp3", content := "" }
    (theManifest envVidNone formC10 filesC10)
    rfl (by decide) (by rfl) (fun _ _ _ => rfl) (by rfl)

/-- C4: a failed Manifest Store write aborts the request with the generic
error and no identifier; the manifest write event, when it occurs, is the
last event of the request, after every dispatched upload has resolved;
and a request that failed before the write (the only such failure is a
music-upload exception) never reaches the manifest write. -/
theorem C4_manifest_write_last :
    (∀ env form files,
        (∀ md pid fl, pyTruthy (upload_raw_task env md pid fl) = false) →
        (generate env form files).response = GenResult.error genericError) ∧
    (∀ env form files, Event.manifestWrite ∈ (generate env form files).trace →
        ∃ pre, (generate env form files).trace = pre ++ [Event.manifestWrite] ∧
          Event.manifestWrite ∉ pre ∧
          ∀ s, Event.dispatch s ∈ pre → Event.resolve s ∈ pre) ∧
    (∀ env form files, (generate env form files).manifestAttempt = none →
        Event.manifestWrite ∉ (generate env form files).trace) := by
  refine ⟨?_, ?_, ?_⟩
  · intro env form files h
    rw [generate_response]
    split
    · rfl
    · rw [h]
      simp
  · intro env form files hmem
    rw [generate_trace] at hmem ⊢
    by_cases hr : musicRaised env files = true
    · rw [if_pos hr] at hmem
      exfalso
      rcases List.mem_append.mp hmem with h | h <;>
        · rcases List.mem_map.mp h with ⟨s, _, hs⟩
          exact Event.noConfusion hs
    · rw [if_neg hr]
      refine ⟨(requestSlots env files).map Event.dispatch ++ (requestSlots env files).map Event.resolve,
        ?_, ?_, ?_⟩
      · rw [List.append_assoc]
      · intro hc
        rcases List.mem_append.mp hc with h | h <;>
          · rcases List.mem_map.mp h with ⟨s, _, hs⟩
            exact Event.noConfusion hs
      · intro s hs
        apply List.mem_append.mpr
        right
        rcases List.mem_append.mp hs with h | h
        · rcases List.mem_map.mp h with ⟨t, ht, hts⟩
          injection hts with hteq
          subst hteq
          exact List.mem_map.mpr ⟨t, ht, rfl⟩
        · rcases List.mem_map.mp h with ⟨t, ht, hts⟩
          exact Event.noConfusion hts
  · intro env form files hnone
    rw [generate_manifestAttempt] at hnone
    rw [generate_trace]
    by_cases hr : musicRaised env files = true
    · rw [if_pos hr]
      intro hc
      rcases List.mem_append.mp hc with h | h <;>
        · rcases List.mem_map.mp h with ⟨s, _, hs⟩
          exact Event.noConfusion hs
    · rw [if_neg hr] at hnone
      simp at hnone

/-- Witness for C4: with a raw upload that always fails, the response is
the generic error and carries no identifier. -/
theorem C4_manifest_write_last_witness :
    (generate envRawFail emptyForm noFiles).response = GenResult.error genericError :=
  C4_manifest_write_last.1 envRawFail emptyForm noFiles (fun _ _ _ => rfl)

/-! Gallery resolution lemmas. -/

lemma gallery_filterMap_eq (env : Env) (u : FileStorage → String → String → String)
    (hok : ∀ f pid fl, env.cloudinaryImage f pid fl = Except.ok { secure_url := some (u f pid fl) }
      ∧ u f pid fl ≠ "") (fl : String) :
    ∀ l : List (Nat × FileStorage),
      ((l.filterMap (fun p => handle_upload env fl (some p.2) ("gallery_" ++ toString p.1))).filterMap
          (fun fu => if pyTruthy fu.result then fu.result else none))
        = (l.filter (fun p => acceptImage p.2)).map
            (fun p => u p.2 ("gallery_" ++ toString p.1 ++ "_"
              ++ beforeLastDot (env.secureFilename p.2.filename)) fl) := by
  intro l
  induction l with
  | nil => rfl
  | cons p t ih =>
    rcases p with ⟨i, f⟩
    by_cases hf : acceptImage f = true
    · have hup : upload_image_task env f
          ("gallery_" ++ toString i ++ "_" ++ beforeLastDot (env.secureFilename f.filename)) fl
          = some (u f ("gallery_" ++ toString i ++ "_"
              ++ beforeLastDot (env.secureFilename f.filename)) fl) := by
        unfold upload_image_task
        rw [(hok f _ fl).1]
      have htr : pyTruthy (some (u f ("gallery_" ++ toString i ++ "_"
          ++ beforeLastDot (env.secureFilename f.filename)) fl)) = true := by
        simp [pyTruthy, (hok f ("gallery_" ++ toString i ++ "_"
          ++ beforeLastDot (env.secureFilename f.filename)) fl).2]
      simp only [List.filterMap_cons, List.filter_cons, handle_upload, hf, if_true, hup, htr,
        List.map_cons]
      exact congrArg _ ih
    · simp only [List.filterMap_cons, List.filter_cons, handle_upload, hf]
      simp only [Bool.false_eq_true, if_false]
      exact ih

lemma gallery_filterMap_nil (env : Env)
    (hfail : ∀ f pid fl, env.cloudinaryImage f pid fl = Except.error ()) (fl : String) :
    ∀ l : List (Nat × FileStorage),
      ((l.filterMap (fun p => handle_upload env fl (some p.2) ("gallery_" ++ toString p.1))).filterMap
          (fun fu => if pyTruthy fu.result then fu.result else none)) = [] := by
  intro l
  induction l with
  | nil => rfl
  | cons p t ih =>
    rcases p with ⟨i, f⟩
    by_cases hf : acceptImage f = true
    · have hup : upload_image_task env f
          ("gallery_" ++ toString i ++ "_" ++ beforeLastDot (env.secureFilename f.filename)) fl
          = none := by
        unfold upload_image_task
        rw [hfail]
      simp only [List.filterMap_cons, handle_upload, hf, if_true, hup]
      exact ih
    · simp only [List.filterMap_cons, handle_upload, hf]
      simp only [Bool.false_eq_true, if_false]
      exact ih

/-- C7: assuming every accepted upload yields a non-empty url given by u,
the manifest's gallery list is exactly the map of u over the accepted
files of the (capped) gallery, filtered and enumerated in submission
order — completion timing plays no role, each future is read back at its
submission slot. -/
theorem C7_gallery_order : ∀ (env : Env) (form : ReqForm) (files : ReqFiles)
      (u : FileStorage → String → String → String) (m : Manifest),
    (∀ f pid fl, env.cloudinaryImage f pid fl = Except.ok { secure_url := some (u f pid fl) }
        ∧ u f pid fl ≠ "") →
    (generate env form files).manifestAttempt = some m →
    m.context.gallery_images =
      (((files.gallery.take MAX_GALLERY).enum).filter (fun p => acceptImage p.2)).map
        (fun p => u p.2 ("gallery_" ++ toString p.1 ++ "_"
          ++ beforeLastDot (env.secureFilename p.2.filename)) (folderName env)) := by
  intro env form files u m hok hm
  rw [manifestAttempt_eq_some hm]
  show gallery_urls env files = _
  unfold gallery_urls gallery_futures
  exact gallery_filterMap_eq env u hok (folderName env) _

def filesC7 : ReqFiles :=
  { gallery := [{ filename := "a.png", content := "" }, { filename := "b.txt", content := "" },
                { filename := "c.jpg", content := "" }] }

def envC7 : Env :=
  { envOk with cloudinaryImage := fun _ _ _ => Except.ok { secure_url := some "https://img.example/x" } }

/-- Witness for C7: of three submitted files the accepted first and third
appear, in submission order. -/
theorem C7_gallery_order_witness :
    (theManifest envC7 emptyForm filesC7).context.gallery_images
      = ["https://img.example/x", "https://img.example/x"] := by
  have h := C7_gallery_order envC7 emptyForm filesC7 (fun _ _ _ => "https://img.example/x")
    (theManifest envC7 emptyForm filesC7)
    (fun _ _ _ => ⟨rfl, show "https://img.example/x" ≠ "" by decide⟩) (by rfl)
  exact h.trans (by rfl)

/-! C1: what actually happens when an image upload raises. -/

/-- A raised exception inside any resolved music upload is impossible when
every cloudinaryVideo call returns. -/
lemma musicRaised_false (env : Env) (files : ReqFiles)
    (hvid : ∀ f pid fl, ∃ r, env.cloudinaryVideo f pid fl = Except.ok r) :
    musicRaised env files = false := by
  unfold musicRaised
  cases hmf : music_future env files with
  | none => rfl
  | some e =>
    cases e with
    | ok r => rfl
    | error u =>
      exfalso
      unfold music_future dispatch_music at hmf
      cases hf : files.music with
      | none =>
        rw [hf] at hmf
        exact Option.noConfusion hmf
      | some f =>
        rw [hf] at hmf
        dsimp only at hmf
        by_cases ha : acceptMusic f = true
        · rw [if_pos ha] at hmf
          obtain ⟨r, hr⟩ := hvid f ("music_" ++ beforeLastDot (env.secureFilename f.filename))
            (folderName env)
          unfold upload_music_task at hmf
          rw [hr] at hmf
          simp at hmf
        · rw [if_neg ha] at hmf
          exact Option.noConfusion hmf

def envImgFailFiles : ReqFiles := { main_image := some { filename := "photo.png", content := "img" } }

/-- C1 counterexample: a main image whose extension passes the allow-list
and whose upload raises does not abort the request — the caller still
receives a link and an identifier. -/
theorem C1_counterexample :
    allowed "photo.png" ALLOWED_IMAGES = true ∧
    envImgFail.cloudinaryImage { filename := "photo.png", content := "img" } "main_photo"
        (folderName envImgFail) = Except.error () ∧
    (generate envImgFail emptyForm envImgFailFiles).response
      = GenResult.ok "http://localhost:5001/generated/uid0000001/" "uid0000001" :=
  ⟨rfl, rfl, by rfl⟩

/-- C1 as amended: an exception in an image upload is caught inside
upload_image_task, which returns None; the slot falls back (main to
main_image_selected, gift to gift_image_selected or the static default,
failed gallery entries are dropped) and the request still succeeds with a
link whenever the music upload returns and the manifest write succeeds. -/
theorem C1_image_failure_fallback : ∀ (env : Env) (form : ReqForm) (files : ReqFiles),
    (∀ f pid fl, env.cloudinaryImage f pid fl = Except.error ()) →
    (∀ f pid fl, ∃ r, env.cloudinaryVideo f pid fl = Except.ok r) →
    (∀ md pid fl, ∃ s, env.cloudinaryRaw md pid fl = Except.ok { secure_url := some s } ∧ s ≠ "") →
    (generate env form files).response
        = GenResult.ok (rstripSlash env.hostUrl ++ "/generated/" ++ env.uid ++ "/") env.uid ∧
    (generate env form files).manifestAttempt = some (theManifest env form files) ∧
    (theManifest env form files).context.main_image = form.main_image_selected ∧
    (theManifest env form files).context.gift_image
        = orElseStr form.gift_image_selected "/static/default_gift.png" ∧
    (theManifest env form files).context.gallery_images = [] := by
  intro env form files himg hvid hraw
  have hmr : musicRaised env files = false := musicRaised_false env files hvid
  have hrawtruthy : pyTruthy (upload_raw_task env (theManifest env form files)
      ("manifest_" ++ env.uid ++ ".json") (folderName env)) = true := by
    obtain ⟨s, hs, hns⟩ := hraw (theManifest env form files)
      ("manifest_" ++ env.uid ++ ".json") (folderName env)
    unfold upload_raw_task
    rw [hs]
    simp [pyTruthy, hns]
  have hmain : futResult (main_future env files) = none := by
    unfold main_future handle_upload
    cases hf : files.main_image with
    | none => rfl
    | some f =>
      dsimp only
      by_cases ha : acceptImage f = true
      · rw [if_pos ha]
        unfold futResult upload_image_task
        rw [himg]
      · rw [if_neg ha]
        rfl
  have hgift : futResult (gift_future env files) = none := by
    unfold gift_future handle_upload
    cases hf : files.gift_image with
    | none => rfl
    | some f =>
      dsimp only
      by_cases ha : acceptImage f = true
      · rw [if_pos ha]
        unfold futResult upload_image_task
        rw [himg]
      · rw [if_neg ha]
        rfl
  refine ⟨?_, ?_, ?_, ?_, ?_⟩
  · rw [generate_response]
    simp [hmr, hrawtruthy]
  · rw [generate_manifestAttempt]
    simp [hmr]
  · show main_url env form files = form.main_image_selected
    unfold main_url
    rw [hmain]
    rfl
  · show gift_url env form files = orElseStr form.gift_image_selected "/static/default_gift.png"
    unfold gift_url
    rw [hgift]
    rfl
  · show gallery_urls env files = []
    unfold gallery_urls gallery_futures
    exact gallery_filterMap_nil env himg (folderName env) _

def formC1w : ReqForm := { main_image_selected := some "https://preset/main.png" }

def filesC1w : ReqFiles :=
  { main_image := some { filename := "photo.png", content := "img" },
    gift_image := some { filename := "gift.png", content := "img" },
    gallery := [{ filename := "g1.png", content := "img" }] }

/-- Witness for the amended C1: all image uploads raise, yet the request
succeeds and the slots fall back. -/
theorem C1_image_failure_fallback_witness :
    (generate envImgFail formC1w filesC1w).response
        = GenResult.ok (rstripSlash envImgFail.hostUrl ++ "/generated/"
            ++ envImgFail.uid ++ "/") envImgFail.uid ∧
    (generate envImgFail formC1w filesC1w).manifestAttempt
        = some (theManifest envImgFail formC1w filesC1w) ∧
    (theManifest envImgFail formC1w filesC1w).context.main_image = formC1w.main_image_selected ∧
    (theManifest envImgFail formC1w filesC1w).context.gift_image
        = orElseStr formC1w.gift_image_selected "/static/default_gift.png" ∧
    (theManifest envImgFail formC1w filesC1w).context.gallery_images = [] :=
  C1_image_failure_fallback envImgFail formC1w filesC1w (fun _ _ _ => rfl)
    (fun _ _ _ => ⟨{ secure_url := some "https://aud.example/track" }, rfl⟩)
    (fun _ _ _ => ⟨"https://raw.example/manifest", rfl, by decide⟩)

/-! C2: what actually happens to an unrecognized template. -/

def formC2 : ReqForm := { title := some "", template := some "nope.html" }

/-- A resolver environment whose store returns the manifest of the
formC2 request and whose template directory contains only the known
templates, so rendering an unknown one raises. -/
def renvC2 : ResolverEnv :=
  { cloudName := "demo",
    httpRaises := fun _ => false,
    httpStatus := fun _ => 200,
    httpJson := fun _ => (generate envOk formC2 noFiles).manifestAttempt,
    render := fun t _ => if t = "birthday.html" then Except.ok "page" else Except.error () }

/-- C2 counterexample: an unrecognized template value is stored verbatim
in the manifest — it does not fall closed to the default template — and
the stored page later resolves to NotFound instead of rendering with the
default template. -/
theorem C2_counterexample :
    ((generate envOk formC2 noFiles).manifestAttempt.map Manifest.template) = some "nope.html" ∧
    "nope.html" ≠ "birthday.html" ∧
    generated_page renvC2 "uid0000001" = PageResult.notFound :=
  ⟨rfl, by decide, by rfl⟩

/-- C2 as amended: assembly never raises on an unknown template — the
template field is stored verbatim (no fallback at assembly), the title,
when the user supplied none and the template is not in the title table,
is the generic celebratory one, and rendering the stored unknown template
later fails and is converted to NotFound. -/
theorem C2_unknown_template_behavior : ∀ (env : Env) (form : ReqForm) (files : ReqFiles)
      (m : Manifest),
    (generate env form files).manifestAttempt = some m →
    m.template = form.template.getD "birthday.html" ∧
    (pyStrip (form.title.getD "") = "" →
        title_map.find? (fun p => p.1 = form.template.getD "birthday.html") = none →
        m.context.title = "ðŸŽ‰ Celebration") ∧
    (∀ renv uid, get_manifest_from_cloudinary renv uid = some m →
        renv.render m.template m.context = Except.error () →
        generated_page renv uid = PageResult.notFound) := by
  intro env form files m hm
  rw [manifestAttempt_eq_some hm]
  refine ⟨rfl, ?_, ?_⟩
  · intro ht hfind
    show theTitle form = _
    unfold theTitle
    rw [if_pos ht]
    unfold dictGet
    rw [hfind]
  · intro renv uid hget hrender
    unfold generated_page
    rw [hget]
    simp [hrender]

/-- Witness for the amended C2 at the concrete unknown template. -/
theorem C2_unknown_template_behavior_witness :
    (theManifest envOk formC2 noFiles).template = "nope.html" ∧
    (theManifest envOk formC2 noFiles).context.title = "ðŸŽ‰ Celebration" ∧
    generated_page renvC2 "uid0000001" = PageResult.notFound := by
  have h := C2_unknown_template_behavior envOk formC2 noFiles
    (theManifest envOk formC2 noFiles) (by rfl)
  exact ⟨h.1.trans (by rfl), h.2.1 (by rfl) (by rfl),
    h.2.2 renvC2 "uid0000001" (by rfl) (by rfl)⟩

end EventSite
